import Mathlib

/-!
Verification of the client-side caching layer of the market-lens dashboard.

The subsystem under study consists of:
* the generic cache-entry envelope `{ data, timestamp, ttl }` and the
  expiry predicate `isExpired` (hooks `useStockCache` / `useScreenerCache`);
* three domain cache instances (stock analyses, AI analyses, screener
  results), each a string-keyed JavaScript object persisted as a whole to
  a `localStorage` slot;
* the cached-fetch façade `createCachedStockApi` wrapping the upstream
  fetch operations with cache-first semantics and a force-refresh bypass;
* the sweep routine `clearExpiredEntries` and the stats surface
  `getCacheStats`.

Modelling conventions: wall-clock instants and durations are `Int`
(JavaScript numbers used at millisecond granularity; subtraction may go
negative). A JavaScript object used as a string-keyed map is an
association list with at most one binding per key; the spread update
`{ ...old, [k]: entry }` replaces the binding for `k` in place when it
exists and appends it otherwise. An `async` function that either resolves
or rejects is a value of `Except ε α`. Every modelled operation is a total
Lean function, reflecting that the source cache operations never throw
(storage faults are caught and swallowed at the call site).
-/

namespace MarketLens

/-- The `CacheEntry<T>` envelope shared by all cache instances:
`{ data: T; timestamp: number; ttl: number }`. -/
structure CacheEntry (α : Type) where
  data : α
  timestamp : Int
  ttl : Int
  deriving Repr, DecidableEq

/-- A JavaScript object used as a string-keyed cache map. -/
abbrev CacheMap (α : Type) := List (String × CacheEntry α)

/-- `CACHE_TTL = 10 * 60 * 1000` (10 minutes in milliseconds), the TTL of
the stock and AI caches. -/
def CACHE_TTL : Int := 10 * 60 * 1000

/-- `SCREENER_CACHE_TTL = 15 * 60 * 1000` (15 minutes in milliseconds). -/
def SCREENER_CACHE_TTL : Int := 15 * 60 * 1000

/-- `isExpired(entry) = Date.now() - entry.timestamp > entry.ttl`, the
expiry predicate shared verbatim by all three cache instances; `now` is
the sampled `Date.now()`. -/
def isExpired {α : Type} (now : Int) (e : CacheEntry α) : Bool :=
  now - e.timestamp > e.ttl

/-- The JavaScript object spread update `{ ...old, [k]: entry }`: if a
binding for `k` exists it is replaced in place, otherwise the new binding
is appended. -/
def objSet {α : Type} (m : CacheMap α) (k : String) (e : CacheEntry α) :
    CacheMap α :=
  if m.any (fun p => p.1 == k) then
    m.map (fun p => if p.1 == k then (k, e) else p)
  else
    m ++ [(k, e)]

/-- The shared read path of the three `get` functions:
`const entry = cache[key]; if (entry && !isExpired(entry)) return
entry.data; return null;`. -/
def getEntry {α : Type} (m : CacheMap α) (now : Int) (k : String) :
    Option α :=
  match m.lookup k with
  | some e => if !(isExpired now e) then some e.data else none
  | none => none

/-- `getCachedStockData(symbol)` of `useStockCache`. -/
def getCachedStockData {α : Type} (m : CacheMap α) (now : Int)
    (symbol : String) : Option α :=
  getEntry m now symbol

/-- The composite AI cache key `` `${prompt}:${question}` ``. -/
def aiKey (prompt question : String) : String :=
  prompt ++ ":" ++ question

/-- `getCachedAIAnalysis(prompt, question)` of `useStockCache`; the lookup
key is the composite `aiKey`. -/
def getCachedAIAnalysis {α : Type} (m : CacheMap α) (now : Int)
    (prompt question : String) : Option α :=
  getEntry m now (aiKey prompt question)

/-- `getCachedScreenerData(templateId)` of `useScreenerCache`. -/
def getCachedScreenerData {α : Type} (m : CacheMap α) (now : Int)
    (templateId : String) : Option α :=
  getEntry m now templateId

/-- `setCachedStockData(symbol, data)`: stores
`{ data, timestamp: Date.now(), ttl: CACHE_TTL }` under `symbol` via the
spread update, then re-persists the whole map. -/
def setCachedStockData {α : Type} (m : CacheMap α) (now : Int)
    (symbol : String) (data : α) : CacheMap α :=
  objSet m symbol ⟨data, now, CACHE_TTL⟩

/-- `setCachedAIAnalysis(prompt, question, data)`: stores the entry under
the composite key `aiKey prompt question` with TTL `CACHE_TTL`. -/
def setCachedAIAnalysis {α : Type} (m : CacheMap α) (now : Int)
    (prompt question : String) (data : α) : CacheMap α :=
  objSet m (aiKey prompt question) ⟨data, now, CACHE_TTL⟩

/-- `setCachedScreenerData(templateId, data)` of `useScreenerCache`, with
TTL `SCREENER_CACHE_TTL`. -/
def setCachedScreenerData {α : Type} (m : CacheMap α) (now : Int)
    (templateId : String) (data : α) : CacheMap α :=
  objSet m templateId ⟨data, now, SCREENER_CACHE_TTL⟩

/-- Result of one run of `useStockCache`'s `clearExpiredEntries`: the new
stock and AI maps held by `cacheRef` and whether `saveToLocalStorage` was
called (the persistence write happens iff `hasChanges`). -/
structure StockSweepResult (α β : Type) where
  stockCache : CacheMap α
  aiCache : CacheMap β
  wrote : Bool
  deriving Repr, DecidableEq

/-- `clearExpiredEntries` of `useStockCache`: rebuilds each map keeping
exactly the entries with `now - entry.timestamp <= entry.ttl`, sets
`hasChanges` when any entry was dropped from either map, and only when
`hasChanges` holds replaces the in-memory maps and re-persists both. -/
def clearExpiredEntries {α β : Type} (stock : CacheMap α) (ai : CacheMap β)
    (now : Int) : StockSweepResult α β :=
  let newStockCache := stock.filter fun p =>
    decide (now - p.2.timestamp ≤ p.2.ttl)
  let newAiCache := ai.filter fun p =>
    decide (now - p.2.timestamp ≤ p.2.ttl)
  let hasChanges :=
    (stock.any fun p => !decide (now - p.2.timestamp ≤ p.2.ttl)) ||
    (ai.any fun p => !decide (now - p.2.timestamp ≤ p.2.ttl))
  if hasChanges then ⟨newStockCache, newAiCache, true⟩
  else ⟨stock, ai, false⟩

/-- Result of `useScreenerCache`'s `clearExpiredEntries`. -/
structure ScreenerSweepResult (α : Type) where
  screenerCache : CacheMap α
  wrote : Bool
  deriving Repr, DecidableEq

/-- `clearExpiredEntries` of `useScreenerCache`: same sweep over its single
map. -/
def clearExpiredScreenerEntries {α : Type} (screener : CacheMap α)
    (now : Int) : ScreenerSweepResult α :=
  let newScreenerCache := screener.filter fun p =>
    decide (now - p.2.timestamp ≤ p.2.ttl)
  let hasChanges :=
    screener.any fun p => !decide (now - p.2.timestamp ≤ p.2.ttl)
  if hasChanges then ⟨newScreenerCache, true⟩
  else ⟨screener, false⟩

/-- The record returned by `useStockCache`'s `getCacheStats`: it has the
fields `stockEntries`, `aiEntries` and `totalEntries` only. -/
structure CacheStats where
  stockEntries : Nat
  aiEntries : Nat
  totalEntries : Nat
  deriving Repr, DecidableEq

/-- `getCacheStats` of `useStockCache`: counts the keys of the stock and
AI maps; `totalEntries` is their sum. The screener cache does not
participate. -/
def getCacheStats {α β : Type} (stock : CacheMap α) (ai : CacheMap β) :
    CacheStats :=
  { stockEntries := stock.length
    aiEntries := ai.length
    totalEntries := stock.length + ai.length }

/-- The record returned by `useScreenerCache`'s own `getCacheStats`. -/
structure ScreenerCacheStats where
  screenerEntries : Nat
  validEntries : Nat
  expiredEntries : Nat
  deriving Repr, DecidableEq

/-- `getCacheStats` of `useScreenerCache`: total keys, keys whose entry is
present and unexpired, and the difference. -/
def getScreenerCacheStats {α : Type} (screener : CacheMap α) (now : Int) :
    ScreenerCacheStats :=
  let valid := screener.filter fun p => !(isExpired now p.2)
  { screenerEntries := screener.length
    validEntries := valid.length
    expiredEntries := screener.length - valid.length }

/-- Modelled from the spec: the combined stats structure claimed for
`getCacheStats` — `{ stockEntries, aiEntries, screenerEntries,
totalEntries }` with `totalEntries` the sum of the entry counts of the
stock, AI and screener domains. No such combiner exists in the source;
this definition follows the spec's words for comparison with the code's
`getCacheStats`. -/
structure CombinedCacheStatsSpec where
  stockEntries : Nat
  aiEntries : Nat
  screenerEntries : Nat
  totalEntries : Nat
  deriving Repr, DecidableEq

/-- Modelled from the spec: the three-domain stats combiner described by
the spec sentence for `getCacheStats()`. -/
def getCacheStatsSpec {α β γ : Type} (stock : CacheMap α) (ai : CacheMap β)
    (screener : CacheMap γ) : CombinedCacheStatsSpec :=
  { stockEntries := stock.length
    aiEntries := ai.length
    screenerEntries := screener.length
    totalEntries := stock.length + ai.length + screener.length }

/-! ### Hydrated (deserialized) entries and hydration

Entries read back from `localStorage` by `JSON.parse` need not have all
three fields; a missing field deserializes to `undefined`. In JavaScript,
`Date.now() - undefined` is `NaN` and every `>` comparison involving `NaN`
(or involving `undefined`, which coerces to `NaN`) is `false`. -/

/-- A deserialized cache entry as it may come out of `JSON.parse`: any of
the three fields may be absent. -/
structure RawEntry (α : Type) where
  data : Option α
  timestamp : Option Int
  ttl : Option Int
  deriving Repr, DecidableEq

/-- A hydrated (possibly malformed) cache map. -/
abbrev RawCacheMap (α : Type) := List (String × RawEntry α)

/-- `isExpired` evaluated on a possibly malformed entry:
`Date.now() - entry.timestamp > entry.ttl` is `false` whenever
`timestamp` or `ttl` is absent, because the comparison then involves
`NaN`. -/
def isExpiredRaw {α : Type} (now : Int) (e : RawEntry α) : Bool :=
  match e.timestamp, e.ttl with
  | some t, some l => now - t > l
  | _, _ => false

/-- The `get` read path on a hydrated map: a present entry object is
truthy regardless of missing fields, so the guard is only the expiry
check, and the returned `entry.data` is `undefined` when the field is
absent (modelled as `none`). -/
def getEntryRaw {α : Type} (m : RawCacheMap α) (now : Int) (k : String) :
    Option α :=
  match m.lookup k with
  | some e => if !(isExpiredRaw now e) then e.data else none
  | none => none

/-- What `localStorage.getItem` + `JSON.parse` yields for one slot:
`none` = no item stored; `some none` = an item whose parse throws
(corrupt content); `some (some m)` = an item parsing to the map `m`. -/
abbrev StoredSlot (α : Type) := Option (Option (RawCacheMap α))

/-- The hydration effect of `useStockCache` (single `try` block): load and
adopt the stock slot, then the AI slot; if either parse throws, the
`catch` removes BOTH slots and adoption stops where the throw happened.
Returns the resulting in-memory maps and, for each slot, whether
`localStorage.removeItem` was called on it. -/
def hydrateStockCache {α β : Type} (stockSlot : StoredSlot α)
    (aiSlot : StoredSlot β) :
    RawCacheMap α × RawCacheMap β × Bool × Bool :=
  match stockSlot with
  | some none => ([], [], true, true)
  | some (some m) =>
    match aiSlot with
    | some none => (m, [], true, true)
    | some (some a) => (m, a, false, false)
    | none => (m, [], false, false)
  | none =>
    match aiSlot with
    | some none => ([], [], true, true)
    | some (some a) => ([], a, false, false)
    | none => ([], [], false, false)

/-- The hydration effect of `useScreenerCache`: adopt the parsed map; on a
parse failure the `catch` removes the screener slot and the in-memory map
stays empty. Returns the in-memory map and whether the slot was
removed. -/
def hydrateScreenerCache {α : Type} (slot : StoredSlot α) :
    RawCacheMap α × Bool :=
  match slot with
  | some none => ([], true)
  | some (some m) => (m, false)
  | none => ([], false)

/-! ### The cached-fetch façade (`createCachedStockApi`) -/

/-- The observable outcome of one façade call: the value returned (or the
rejection propagated), the cache map afterwards, and how many times the
upstream fetch and the cache `set` were invoked during the call. -/
structure FacadeCall (ε α : Type) where
  result : Except ε α
  cache : CacheMap α
  fetchCalls : Nat
  setCalls : Nat
  deriving Repr

/-- The shared miss/refresh path of both façade functions: invoke the
upstream fetch once; on resolution store the value and return it, on
rejection propagate it with no cache write. `fetch` is the outcome of
that one invocation. -/
def fetchAndStore {ε α : Type} (m : CacheMap α) (now : Int)
    (fetch : Except ε α) (key : String) (ttl : Int) : FacadeCall ε α :=
  match fetch with
  | Except.ok data => ⟨Except.ok data, objSet m key ⟨data, now, ttl⟩, 1, 1⟩
  | Except.error e => ⟨Except.error e, m, 1, 0⟩

/-- `cachedGetStockData(symbol, forceRefresh)`: unless `forceRefresh`,
consult `getCachedStockData` and return a hit immediately (no fetch);
otherwise fetch, store on success via `setCachedStockData`, and return. -/
def cachedGetStockData {ε α : Type} (m : CacheMap α) (now : Int)
    (fetch : Except ε α) (symbol : String) (forceRefresh : Bool) :
    FacadeCall ε α :=
  if !forceRefresh then
    match getCachedStockData m now symbol with
    | some cached => ⟨Except.ok cached, m, 0, 0⟩
    | none => fetchAndStore m now fetch symbol CACHE_TTL
  else
    fetchAndStore m now fetch symbol CACHE_TTL

/-- `cachedGetAIAnalysis(symbol, question, forceRefresh)`: same algorithm
over the AI cache, keyed by the composite `aiKey symbol question`. -/
def cachedGetAIAnalysis {ε α : Type} (m : CacheMap α) (now : Int)
    (fetch : Except ε α) (symbol question : String) (forceRefresh : Bool) :
    FacadeCall ε α :=
  if !forceRefresh then
    match getCachedAIAnalysis m now symbol question with
    | some cached => ⟨Except.ok cached, m, 0, 0⟩
    | none => fetchAndStore m now fetch (aiKey symbol question) CACHE_TTL
  else
    fetchAndStore m now fetch (aiKey symbol question) CACHE_TTL

/-! ### Association-list lookup lemmas -/

theorem lookup_cons_of_beq {β : Type} {k a : String} {b : β}
    {t : List (String × β)} (h : (k == a) = true) :
    List.lookup k ((a, b) :: t) = some b := by
  rw [List.lookup_cons, h]

theorem lookup_cons_of_bne {β : Type} {k a : String} {b : β}
    {t : List (String × β)} (h : (k == a) = false) :
    List.lookup k ((a, b) :: t) = List.lookup k t := by
  rw [List.lookup_cons, h]

theorem lookup_replace {β : Type} (k : String) (e : β)
    (m : List (String × β)) (h : m.any (fun p => p.1 == k) = true) :
    (m.map (fun p => if p.1 == k then (k, e) else p)).lookup k = some e := by
  induction m with
  | nil => simp at h
  | cons hd t ih =>
    obtain ⟨a, b⟩ := hd
    simp only [List.any_cons, Bool.or_eq_true] at h
    by_cases hak : a = k
    · subst hak
      simp only [List.map_cons, beq_self_eq_true, if_true]
      exact lookup_cons_of_beq (beq_self_eq_true a)
    · have hb : (a == k) = false := beq_false_of_ne hak
      have hb' : (k == a) = false := beq_false_of_ne (Ne.symm hak)
      simp only [List.map_cons, hb, Bool.false_eq_true, if_false]
      rw [lookup_cons_of_bne hb']
      exact ih (h.resolve_left (by simp [hb]))

theorem lookup_eq_none_of_any_eq_false {β : Type} (k : String)
    (m : List (String × β)) (h : m.any (fun p => p.1 == k) = false) :
    m.lookup k = none := by
  induction m with
  | nil => rfl
  | cons hd t ih =>
    obtain ⟨a, b⟩ := hd
    simp only [List.any_cons, Bool.or_eq_false_iff] at h
    have hb' : (k == a) = false :=
      beq_false_of_ne (fun hk => by simp [hk] at h)
    rw [lookup_cons_of_bne hb']
    exact ih h.2

theorem lookup_append_of_none {β : Type} (k : String)
    (m l : List (String × β)) (h : m.lookup k = none) :
    (m ++ l).lookup k = l.lookup k := by
  induction m with
  | nil => rfl
  | cons hd t ih =>
    obtain ⟨a, b⟩ := hd
    rw [List.cons_append]
    cases hka : (k == a) with
    | true => rw [lookup_cons_of_beq hka] at h; exact absurd h (by simp)
    | false =>
      rw [lookup_cons_of_bne hka] at h
      rw [lookup_cons_of_bne hka]
      exact ih h

/-- `lookup` after a spread update finds the new entry. -/
theorem lookup_objSet_self {α : Type} (m : CacheMap α) (k : String)
    (e : CacheEntry α) : (objSet m k e).lookup k = some e := by
  unfold objSet
  cases hany : m.any (fun p => p.1 == k) with
  | true =>
    simp only [if_true]
    exact lookup_replace k e m hany
  | false =>
    simp only [Bool.false_eq_true, if_false]
    rw [lookup_append_of_none k m _ (lookup_eq_none_of_any_eq_false k m hany)]
    exact lookup_cons_of_beq (by simp)

/-- A spread update leaves every other key's lookup unchanged. -/
theorem lookup_objSet_ne {α : Type} (m : CacheMap α) (k k' : String)
    (e : CacheEntry α) (h : k' ≠ k) :
    (objSet m k e).lookup k' = m.lookup k' := by
  unfold objSet
  cases hany : m.any (fun p => p.1 == k) with
  | true =>
    simp only [if_true]
    clear hany
    induction m with
    | nil => rfl
    | cons hd t ih =>
      obtain ⟨a, b⟩ := hd
      simp only [List.map_cons]
      by_cases hak : a = k
      · subst hak
        have hk'a : (k' == a) = false := beq_false_of_ne h
        simp only [beq_self_eq_true, if_true]
        rw [lookup_cons_of_bne hk'a, lookup_cons_of_bne hk'a]
        exact ih
      · have hb : (a == k) = false := beq_false_of_ne hak
        simp only [hb, Bool.false_eq_true, if_false]
        cases hka : (k' == a) with
        | true => rw [lookup_cons_of_beq hka, lookup_cons_of_beq hka]
        | false => rw [lookup_cons_of_bne hka, lookup_cons_of_bne hka]; exact ih
  | false =>
    simp only [Bool.false_eq_true, if_false]
    have hk : m.lookup k = none := lookup_eq_none_of_any_eq_false k m hany
    clear hany
    induction m with
    | nil =>
      show List.lookup k' [(k, e)] = none
      exact lookup_cons_of_bne (beq_false_of_ne h) |>.trans rfl
    | cons hd t ih =>
      obtain ⟨a, b⟩ := hd
      rw [List.cons_append]
      cases hka : (k' == a) with
      | true => rw [lookup_cons_of_beq hka, lookup_cons_of_beq hka]
      | false =>
        rw [lookup_cons_of_bne hka, lookup_cons_of_bne hka]
        cases hkb : (k == a) with
        | true => rw [lookup_cons_of_beq hkb] at hk; exact absurd hk (by simp)
        | false => rw [lookup_cons_of_bne hkb] at hk; exact ih hk

theorem lookup_eq_none_of_not_mem_keys {β : Type} (k : String)
    (m : List (String × β)) (h : k ∉ m.map Prod.fst) : m.lookup k = none := by
  induction m with
  | nil => rfl
  | cons hd t ih =>
    obtain ⟨a, b⟩ := hd
    simp only [List.map_cons, List.mem_cons, not_or] at h
    rw [lookup_cons_of_bne (beq_false_of_ne h.1)]
    exact ih h.2

theorem lookup_mem {β : Type} (k : String) (m : List (String × β)) (e : β)
    (h : m.lookup k = some e) : (k, e) ∈ m := by
  induction m with
  | nil => exact absurd h (by simp [List.lookup])
  | cons hd t ih =>
    obtain ⟨a, b⟩ := hd
    cases hka : (k == a) with
    | true =>
      rw [lookup_cons_of_beq hka] at h
      have hk : k = a := eq_of_beq hka
      have hb : b = e := by injection h
      subst hk; subst hb
      exact List.mem_cons_self _ _
    | false =>
      rw [lookup_cons_of_bne hka] at h
      exact List.mem_cons_of_mem _ (ih h)

theorem lookup_filter_none {β : Type} (p : String × β → Bool)
    (m : List (String × β)) (k : String) (h : m.lookup k = none) :
    (m.filter p).lookup k = none := by
  induction m with
  | nil => rfl
  | cons hd t ih =>
    obtain ⟨a, b⟩ := hd
    cases hka : (k == a) with
    | true => rw [lookup_cons_of_beq hka] at h; exact absurd h (by simp)
    | false =>
      rw [lookup_cons_of_bne hka] at h
      rw [List.filter_cons]
      cases hp : p (a, b) with
      | true =>
        simp only [if_true]
        rw [lookup_cons_of_bne hka]
        exact ih h
      | false =>
        simp only [Bool.false_eq_true, if_false]
        exact ih h

/-- Looking up a key after filtering a map with unique keys: the original
entry survives iff it passes the filter predicate. -/
theorem lookup_filter_keep {β : Type} (p : String × β → Bool)
    (m : List (String × β)) (hnd : (m.map Prod.fst).Nodup) (k : String)
    (e : β) (hm : m.lookup k = some e) :
    (m.filter p).lookup k = if p (k, e) then some e else none := by
  induction m with
  | nil => exact absurd hm (by simp [List.lookup])
  | cons hd t ih =>
    obtain ⟨a, b⟩ := hd
    simp only [List.map_cons, List.nodup_cons] at hnd
    obtain ⟨ha, ht⟩ := hnd
    cases hka : (k == a) with
    | true =>
      have hk : k = a := eq_of_beq hka
      rw [lookup_cons_of_beq hka] at hm
      have hb : b = e := by injection hm
      subst hk; subst hb
      rw [List.filter_cons]
      cases hp : p (k, b) with
      | true => exact lookup_cons_of_beq (beq_self_eq_true k)
      | false =>
        exact lookup_filter_none p t k (lookup_eq_none_of_not_mem_keys k t ha)
    | false =>
      rw [lookup_cons_of_bne hka] at hm
      rw [List.filter_cons]
      cases hp : p (a, b) with
      | true =>
        simp only [if_true]
        rw [lookup_cons_of_bne hka]
        exact ih ht hm
      | false =>
        simp only [Bool.false_eq_true, if_false]
        exact ih ht hm

/-- The keep condition of the sweep loop is the negation of `isExpired`
at the same sampled clock. -/
theorem keep_eq_not_isExpired {α : Type} (now : Int) (e : CacheEntry α) :
    decide (now - e.timestamp ≤ e.ttl) = !(isExpired now e) := by
  unfold isExpired
  by_cases h : now - e.timestamp ≤ e.ttl
  · simp [h, not_lt.mpr h]
  · simp [h, lt_of_not_le h]

theorem drop_eq_isExpired {α : Type} (now : Int) (e : CacheEntry α) :
    (!decide (now - e.timestamp ≤ e.ttl)) = isExpired now e := by
  rw [keep_eq_not_isExpired, Bool.not_not]

theorem any_drop_eq_any_isExpired {α : Type} (now : Int) (m : CacheMap α) :
    (m.any fun p => !decide (now - p.2.timestamp ≤ p.2.ttl)) =
      (m.any fun p => isExpired now p.2) := by
  induction m with
  | nil => rfl
  | cons hd t ih => simp only [List.any_cons, drop_eq_isExpired, ih]

/-- A `get` on a stored entry that has not outlived its TTL. -/
theorem getEntry_objSet_self {α : Type} (m : CacheMap α) (now t : Int)
    (k : String) (v : α) (ttl : Int) (h : now - t ≤ ttl) :
    getEntry (objSet m k ⟨v, t, ttl⟩) now k = some v := by
  unfold getEntry
  rw [lookup_objSet_self]
  have hexp : isExpired now (⟨v, t, ttl⟩ : CacheEntry α) = false := by
    unfold isExpired
    simp only [decide_eq_false_iff_not, not_lt]
    exact h
  show (if (!isExpired now (⟨v, t, ttl⟩ : CacheEntry α)) = true
    then some v else none) = some v
  rw [hexp]
  rfl

theorem getEntry_eq_none_of_all_expired {α : Type} (m : CacheMap α)
    (now : Int) (k : String)
    (h : ((m.lookup k).all fun e => isExpired now e) = true) :
    getEntry m now k = none := by
  unfold getEntry
  cases hm : m.lookup k with
  | none => rfl
  | some e =>
    rw [hm] at h
    simp only [Option.all_some] at h
    show (if (!isExpired now e) = true then some e.data else none) = none
    rw [h]
    rfl

/-! ### Claim theorems -/

/-- C1: for every cache instance (stock, AI, screener) and every key, if
the stored entry satisfies `now - storedAt > ttl`, or no entry exists for
the key, then `get` returns `none`; in particular `get` never returns an
expired entry's data. Each hypothesis states that the key's lookup is
either absent or expired (`Option.all`); never throwing is reflected by
the `get` functions being total. -/
theorem claim_C1_get_never_returns_expired {α β γ : Type}
    (ms : CacheMap α) (ma : CacheMap β) (mc : CacheMap γ) (now : Int)
    (symbol prompt question templateId : String)
    (hs : ((ms.lookup symbol).all fun e => isExpired now e) = true)
    (ha : ((ma.lookup (aiKey prompt question)).all
      fun e => isExpired now e) = true)
    (hc : ((mc.lookup templateId).all fun e => isExpired now e) = true) :
    getCachedStockData ms now symbol = none ∧
    getCachedAIAnalysis ma now prompt question = none ∧
    getCachedScreenerData mc now templateId = none :=
  ⟨getEntry_eq_none_of_all_expired ms now symbol hs,
   getEntry_eq_none_of_all_expired ma now (aiKey prompt question) ha,
   getEntry_eq_none_of_all_expired mc now templateId hc⟩

/-- Witness for C1: a stock entry stored at time 0 with the 10-minute TTL
is absent one millisecond after expiry; a missing AI key and an expired
screener entry are also absent. -/
theorem claim_C1_witness :
    getCachedStockData [("AAPL", (⟨7, 0, CACHE_TTL⟩ : CacheEntry Nat))]
      (SCREENER_CACHE_TTL + 1) "AAPL" = none ∧
    getCachedAIAnalysis ([] : CacheMap Nat) (SCREENER_CACHE_TTL + 1) "AAPL"
      "q" = none ∧
    getCachedScreenerData
      [("t1", (⟨5, 0, SCREENER_CACHE_TTL⟩ : CacheEntry Nat))]
      (SCREENER_CACHE_TTL + 1) "t1" = none :=
  claim_C1_get_never_returns_expired
    [("AAPL", (⟨7, 0, CACHE_TTL⟩ : CacheEntry Nat))] ([] : CacheMap Nat)
    [("t1", (⟨5, 0, SCREENER_CACHE_TTL⟩ : CacheEntry Nat))]
    (SCREENER_CACHE_TTL + 1) "AAPL" "AAPL" "q" "t1"
    (by decide) (by decide) (by decide)

/-- C2: a façade call with `forceRefresh = false` on a key holding a valid
cached entry returns the cached value, never invokes the upstream fetch,
performs no `set`, and leaves the cache unchanged — for both the
stock-data and AI-analysis façades. -/
theorem claim_C2_hit_skips_fetch {ε α β : Type} (ms : CacheMap α)
    (ma : CacheMap β) (now : Int) (fetchS : Except ε α) (fetchA : Except ε β)
    (symbol prompt question : String) (v : α) (w : β)
    (hs : getCachedStockData ms now symbol = some v)
    (ha : getCachedAIAnalysis ma now prompt question = some w) :
    cachedGetStockData ms now fetchS symbol false =
      ⟨Except.ok v, ms, 0, 0⟩ ∧
    cachedGetAIAnalysis ma now fetchA prompt question false =
      ⟨Except.ok w, ma, 0, 0⟩ := by
  constructor
  · unfold cachedGetStockData
    rw [hs]
    rfl
  · unfold cachedGetAIAnalysis
    rw [ha]
    rfl

/-- Witness for C2: with an unexpired entry for `"AAPL"` in each cache,
the façades return the cached values, even though the supplied upstream
outcome would have been a rejection. -/
theorem claim_C2_witness :
    cachedGetStockData [("AAPL", (⟨7, 0, CACHE_TTL⟩ : CacheEntry Nat))] 5
      (Except.error "down") "AAPL" false =
      ⟨Except.ok 7, [("AAPL", (⟨7, 0, CACHE_TTL⟩ : CacheEntry Nat))], 0, 0⟩ ∧
    cachedGetAIAnalysis [("AAPL:q", (⟨9, 0, CACHE_TTL⟩ : CacheEntry Nat))] 5
      (Except.error "down") "AAPL" "q" false =
      ⟨Except.ok 9, [("AAPL:q", (⟨9, 0, CACHE_TTL⟩ : CacheEntry Nat))],
        0, 0⟩ :=
  claim_C2_hit_skips_fetch
    [("AAPL", (⟨7, 0, CACHE_TTL⟩ : CacheEntry Nat))]
    [("AAPL:q", (⟨9, 0, CACHE_TTL⟩ : CacheEntry Nat))] 5
    (Except.error "down") (Except.error "down") "AAPL" "AAPL" "q" 7 9
    (by decide) (by decide)

/-- C3: if the upstream fetch invoked by a façade call rejects, the same
rejection is the call's result, no `set` occurs and the cache map is
unchanged — so a subsequent call finds the cache exactly as before. The
hypothesis states that the fetch is reached (force refresh, or a cache
miss). -/
theorem claim_C3_failure_not_cached {ε α β : Type} (ms : CacheMap α)
    (ma : CacheMap β) (now : Int) (e : ε)
    (symbol prompt question : String) (forceS forceA : Bool)
    (hs : forceS = true ∨ getCachedStockData ms now symbol = none)
    (ha : forceA = true ∨
      getCachedAIAnalysis ma now prompt question = none) :
    cachedGetStockData ms now (Except.error e) symbol forceS =
      ⟨Except.error e, ms, 1, 0⟩ ∧
    cachedGetAIAnalysis ma now (Except.error e) prompt question forceA =
      ⟨Except.error e, ma, 1, 0⟩ := by
  constructor
  · cases forceS with
    | true => rfl
    | false =>
      have hmiss : getCachedStockData ms now symbol = none :=
        hs.resolve_left (by simp)
      unfold cachedGetStockData
      rw [hmiss]
      rfl
  · cases forceA with
    | true => rfl
    | false =>
      have hmiss : getCachedAIAnalysis ma now prompt question = none :=
        ha.resolve_left (by simp)
      unfold cachedGetAIAnalysis
      rw [hmiss]
      rfl

/-- Witness for C3: on an empty stock cache and a force-refreshed AI call,
a rejected fetch is propagated and both caches are left untouched. -/
theorem claim_C3_witness :
    cachedGetStockData ([] : CacheMap Nat) 0
      (Except.error "boom") "AAPL" false =
      ⟨Except.error "boom", ([] : CacheMap Nat), 1, 0⟩ ∧
    cachedGetAIAnalysis [("AAPL:q", (⟨9, 0, CACHE_TTL⟩ : CacheEntry Nat))] 0
      (Except.error "boom") "AAPL" "q" true =
      ⟨Except.error "boom",
        [("AAPL:q", (⟨9, 0, CACHE_TTL⟩ : CacheEntry Nat))], 1, 0⟩ :=
  claim_C3_failure_not_cached ([] : CacheMap Nat)
    [("AAPL:q", (⟨9, 0, CACHE_TTL⟩ : CacheEntry Nat))] 0 "boom"
    "AAPL" "AAPL" "q" false true
    (Or.inr (by decide)) (Or.inl rfl)

/-- C6: a `set` followed by a `get` within the TTL window returns the
value just written, for all three instances; a second `set` of the same
key overwrites unconditionally, so only the second value is returned
(last-write-wins) and the stored entry carries the second write's
timestamp. -/
theorem claim_C6_set_get_lww {α β γ : Type} (ms : CacheMap α)
    (ma : CacheMap β) (mc : CacheMap γ) (t1 t2 now : Int)
    (symbol prompt question templateId : String) (v1 v2 : α) (w : β)
    (u : γ) (hnow : now - t2 ≤ CACHE_TTL)
    (hscr : now - t2 ≤ SCREENER_CACHE_TTL) :
    getCachedStockData (setCachedStockData ms t2 symbol v2) now symbol =
      some v2 ∧
    getCachedAIAnalysis (setCachedAIAnalysis ma t2 prompt question w) now
      prompt question = some w ∧
    getCachedScreenerData (setCachedScreenerData mc t2 templateId u) now
      templateId = some u ∧
    getCachedStockData
      (setCachedStockData (setCachedStockData ms t1 symbol v1) t2 symbol v2)
      now symbol = some v2 ∧
    (setCachedStockData (setCachedStockData ms t1 symbol v1) t2 symbol
      v2).lookup symbol = some ⟨v2, t2, CACHE_TTL⟩ :=
  ⟨getEntry_objSet_self ms now t2 symbol v2 CACHE_TTL hnow,
   getEntry_objSet_self ma now t2 (aiKey prompt question) w CACHE_TTL hnow,
   getEntry_objSet_self mc now t2 templateId u SCREENER_CACHE_TTL hscr,
   getEntry_objSet_self _ now t2 symbol v2 CACHE_TTL hnow,
   lookup_objSet_self _ symbol _⟩

/-- Witness for C6: concrete writes at times 0 and 10, read at time 20. -/
theorem claim_C6_witness :
    getCachedStockData (setCachedStockData ([] : CacheMap Nat) 10 "AAPL" 2)
      20 "AAPL" = some 2 ∧
    getCachedAIAnalysis
      (setCachedAIAnalysis ([] : CacheMap Nat) 10 "AAPL" "q" 3) 20 "AAPL"
      "q" = some 3 ∧
    getCachedScreenerData
      (setCachedScreenerData ([] : CacheMap Nat) 10 "t1" 4) 20 "t1" =
      some 4 ∧
    getCachedStockData
      (setCachedStockData (setCachedStockData ([] : CacheMap Nat) 0 "AAPL"
        1) 10 "AAPL" 2) 20 "AAPL" = some 2 ∧
    (setCachedStockData (setCachedStockData ([] : CacheMap Nat) 0 "AAPL" 1)
      10 "AAPL" 2).lookup "AAPL" = some ⟨2, 10, CACHE_TTL⟩ :=
  claim_C6_set_get_lww ([] : CacheMap Nat) ([] : CacheMap Nat)
    ([] : CacheMap Nat) 0 10 20 "AAPL" "AAPL" "q" "t1" 1 2 3 4
    (by decide) (by decide)

/-- C8: a façade call with `forceRefresh = true` always invokes the
upstream fetch — regardless of the cache contents — and on success
performs exactly one `set` of the fetched value, returns that value, and
the refreshed entry is immediately readable. -/
theorem claim_C8_force_refresh {ε α β : Type} (ms : CacheMap α)
    (ma : CacheMap β) (now : Int) (d : α) (w : β)
    (symbol prompt question : String) :
    cachedGetStockData ms now (Except.ok (ε := ε) d) symbol true =
      ⟨Except.ok d, setCachedStockData ms now symbol d, 1, 1⟩ ∧
    getCachedStockData (setCachedStockData ms now symbol d) now symbol =
      some d ∧
    cachedGetAIAnalysis ma now (Except.ok (ε := ε) w) prompt question true =
      ⟨Except.ok w, setCachedAIAnalysis ma now prompt question w, 1, 1⟩ ∧
    getCachedAIAnalysis (setCachedAIAnalysis ma now prompt question w) now
      prompt question = some w :=
  ⟨rfl,
   getEntry_objSet_self ms now now symbol d CACHE_TTL (by simp [CACHE_TTL]),
   rfl,
   getEntry_objSet_self ma now now (aiKey prompt question) w CACHE_TTL
     (by simp [CACHE_TTL])⟩

/-- C10: the AI cache key is the plain concatenation
`prompt ++ ":" ++ question`, which is not injective: the distinct pairs
`("a:b", "c")` and `("a", "b:c")` share the key `"a:b:c"`, so a `set` for
one pair overwrites the entry a `get` for the other pair returns. -/
theorem claim_C10_ai_key_collision :
    aiKey "a:b" "c" = aiKey "a" "b:c" ∧
    ("a:b", "c") ≠ ("a", "b:c") ∧
    getCachedAIAnalysis
      (setCachedAIAnalysis
        (setCachedAIAnalysis ([] : CacheMap Nat) 0 "a" "b:c" 1) 0 "a:b" "c"
        2) 0 "a" "b:c" = some 2 := by
  refine ⟨rfl, by decide, ?_⟩
  decide

/-- C4 counterexample: with empty stock and AI caches and one screener
entry, the structure returned by the code's `getCacheStats` reports
`totalEntries = 0`, while the spec-modelled three-domain combiner
(`getCacheStatsSpec`) reports `totalEntries = 1`; `getCacheStats` does not
take the screener cache into account at all (its result type has no
`screenerEntries` field). -/
theorem claim_C4_counterexample :
    (getCacheStats ([] : CacheMap Nat) ([] : CacheMap Nat)).totalEntries ≠
      (getCacheStatsSpec ([] : CacheMap Nat) ([] : CacheMap Nat)
        [("t1", (⟨5, 0, SCREENER_CACHE_TTL⟩ : CacheEntry Nat))]).totalEntries
      := by
  decide

/-- C4 (amended): `getCacheStats` of `useStockCache` combines only the
stock and AI caches, returning `{ stockEntries, aiEntries, totalEntries }`
with `totalEntries` the sum of the stock and AI entry counts; the screener
cache is excluded and exposes its own separate `getCacheStats` whose
`screenerEntries` is its entry count. -/
theorem claim_C4_stats_stock_ai_only {α β γ : Type} (stock : CacheMap α)
    (ai : CacheMap β) (scr : CacheMap γ) (now : Int) :
    getCacheStats stock ai =
      { stockEntries := stock.length
        aiEntries := ai.length
        totalEntries := stock.length + ai.length } ∧
    (getCacheStats stock ai).totalEntries =
      (getCacheStats stock ai).stockEntries +
        (getCacheStats stock ai).aiEntries ∧
    (getScreenerCacheStats scr now).screenerEntries = scr.length :=
  ⟨rfl, rfl, rfl⟩

/-- C5 counterexample: a hydrated stock-cache entry that is missing its
`timestamp` field is NOT treated as absent: because
`Date.now() - undefined > ttl` is a `NaN` comparison and therefore false,
the entry never counts as expired and its data is returned — here at a
clock value far beyond any TTL. -/
theorem claim_C5_counterexample :
    getEntryRaw
      [("AAPL", (⟨some 42, none, some CACHE_TTL⟩ : RawEntry Nat))]
      1000000000000000 "AAPL" = some 42 ∧
    getEntryRaw
      [("AAPL", (⟨some 42, none, some CACHE_TTL⟩ : RawEntry Nat))]
      1000000000000000 "AAPL" ≠ none := by
  constructor
  · decide
  · decide

/-- C5 (amended): on a hydrated map, an entry missing its `data` field
yields an absent result; but an entry missing `timestamp` or `ttl` is
treated as never expired (the `NaN` comparison is false) and its data is
served. A malformed entry does not prevent the other entries of the map
from being loaded and served: lookups of other keys are unaffected by its
presence. -/
theorem claim_C5_malformed_entries {α : Type} (m : RawCacheMap α)
    (now : Int) (k kOther : String) (v : α) (ts ttl : Int)
    (bad : RawEntry α) (hk : kOther ≠ k) :
    (∀ e, m.lookup k = some e → e.data = none →
      getEntryRaw m now k = none) ∧
    (m.lookup k = some ⟨some v, none, some ttl⟩ →
      getEntryRaw m now k = some v) ∧
    (m.lookup k = some ⟨some v, some ts, none⟩ →
      getEntryRaw m now k = some v) ∧
    getEntryRaw ((k, bad) :: m) now kOther = getEntryRaw m now kOther := by
  refine ⟨?_, ?_, ?_, ?_⟩
  · intro e he hdata
    unfold getEntryRaw
    rw [he]
    show (if (!isExpiredRaw now e) = true then e.data else none) = none
    cases hexp : isExpiredRaw now e with
    | true => rfl
    | false => exact hdata
  · intro he
    unfold getEntryRaw
    rw [he]
    rfl
  · intro he
    unfold getEntryRaw
    rw [he]
    rfl
  · unfold getEntryRaw
    rw [lookup_cons_of_bne (beq_false_of_ne hk)]

/-- Witness for C5 (amended): concrete malformed entries — missing
`data` is absent, missing `timestamp` is served long after any TTL, and a
malformed entry sitting next to a good one leaves the good one served. -/
theorem claim_C5_witness :
    getEntryRaw [("A", (⟨none, some 0, some CACHE_TTL⟩ : RawEntry Nat))] 0
      "A" = none ∧
    getEntryRaw
      [("A", (⟨some 5, none, some CACHE_TTL⟩ : RawEntry Nat))]
      1000000000000000 "A" = some 5 ∧
    getEntryRaw
      [("A", (⟨some 5, some 0, none⟩ : RawEntry Nat))]
      1000000000000000 "A" = some 5 ∧
    getEntryRaw
      [("A", (⟨none, none, none⟩ : RawEntry Nat)),
       ("B", (⟨some 8, some 0, some CACHE_TTL⟩ : RawEntry Nat))] 0 "B" =
      getEntryRaw
        [("B", (⟨some 8, some 0, some CACHE_TTL⟩ : RawEntry Nat))] 0 "B" :=
  ⟨(claim_C5_malformed_entries
      [("A", (⟨none, some 0, some CACHE_TTL⟩ : RawEntry Nat))] 0 "A" "B" 0
      0 0 ⟨none, none, none⟩ (by decide)).1
      ⟨none, some 0, some CACHE_TTL⟩ (by decide) rfl,
   (claim_C5_malformed_entries
      [("A", (⟨some 5, none, some CACHE_TTL⟩ : RawEntry Nat))]
      1000000000000000 "A" "B" 5 0 CACHE_TTL ⟨none, none, none⟩
      (by decide)).2.1 (by decide),
   (claim_C5_malformed_entries
      [("A", (⟨some 5, some 0, none⟩ : RawEntry Nat))]
      1000000000000000 "A" "B" 5 0 0 ⟨none, none, none⟩
      (by decide)).2.2.1 (by decide),
   (claim_C5_malformed_entries
      [("B", (⟨some 8, some 0, some CACHE_TTL⟩ : RawEntry Nat))] 0 "A" "B"
      0 0 0 ⟨none, none, none⟩ (by decide)).2.2.2⟩

/-- C9: a deserialization failure during hydration leaves the failing
cache with an empty in-memory map and removes the corrupt slot; no error
propagates to the caller (the hydration functions are total). Shown for
the screener cache, for a corrupt stock slot, and for a corrupt AI slot
after a healthy stock slot. -/
theorem claim_C9_corrupt_hydration {α β γ : Type} (aiSlot : StoredSlot β)
    (m : RawCacheMap α) :
    hydrateScreenerCache (some (none : Option (RawCacheMap γ))) =
      (([] : RawCacheMap γ), true) ∧
    hydrateStockCache (some (none : Option (RawCacheMap α))) aiSlot =
      ([], [], true, true) ∧
    hydrateStockCache (some (some m))
      (some (none : Option (RawCacheMap β))) = (m, [], true, true) :=
  ⟨rfl, rfl, rfl⟩

/-- Witness for C9 at concrete slots. -/
theorem claim_C9_witness :
    hydrateScreenerCache (some (none : Option (RawCacheMap Nat))) =
      (([] : RawCacheMap Nat), true) ∧
    hydrateStockCache (some (none : Option (RawCacheMap Nat)))
      (some (some ([] : RawCacheMap Nat))) = ([], [], true, true) ∧
    hydrateStockCache
      (some (some [("A", (⟨some 3, some 0, some CACHE_TTL⟩ :
        RawEntry Nat))]))
      (some (none : Option (RawCacheMap Nat))) =
      ([("A", (⟨some 3, some 0, some CACHE_TTL⟩ : RawEntry Nat))], [],
        true, true) :=
  claim_C9_corrupt_hydration (some (some ([] : RawCacheMap Nat)))
    [("A", (⟨some 3, some 0, some CACHE_TTL⟩ : RawEntry Nat))]

theorem sweep_filter_lookup {α : Type} (m : CacheMap α) (now : Int)
    (hnd : (m.map Prod.fst).Nodup) (k : String) (e : CacheEntry α)
    (hm : m.lookup k = some e) :
    (m.filter fun p =>
      decide (now - p.2.timestamp ≤ p.2.ttl)).lookup k =
      if isExpired now e then none else some e := by
  rw [lookup_filter_keep _ m hnd k e hm]
  rw [keep_eq_not_isExpired]
  cases h : isExpired now e <;> rfl

theorem isExpired_false_of_any_false {α : Type} (m : CacheMap α)
    (now : Int) (k : String) (e : CacheEntry α)
    (hany : (m.any fun p => isExpired now p.2) = false)
    (hm : m.lookup k = some e) : isExpired now e = false := by
  have hmem : (k, e) ∈ m := lookup_mem k m e hm
  cases hb : isExpired now e with
  | false => rfl
  | true =>
    have : m.any (fun p => isExpired now p.2) = true :=
      List.any_eq_true.mpr ⟨(k, e), hmem, hb⟩
    rw [this] at hany
    exact absurd hany (by simp)

theorem screener_sweep_nowrite {γ : Type} (scr : CacheMap γ) (now : Int)
    (hC : (scr.any fun p => isExpired now p.2) = false) :
    clearExpiredScreenerEntries scr now = ⟨scr, false⟩ := by
  have hhc : (scr.any fun p => !decide (now - p.2.timestamp ≤ p.2.ttl)) =
      false := by
    rw [any_drop_eq_any_isExpired]
    exact hC
  unfold clearExpiredScreenerEntries
  rw [hhc]
  rfl

theorem screener_sweep_some {γ : Type} (scr : CacheMap γ) (now : Int)
    (hnd : (scr.map Prod.fst).Nodup) (k : String) (e : CacheEntry γ)
    (hm : scr.lookup k = some e) :
    (clearExpiredScreenerEntries scr now).screenerCache.lookup k =
      if isExpired now e then none else some e := by
  cases hhc : (scr.any fun p => !decide (now - p.2.timestamp ≤ p.2.ttl))
      with
  | true =>
    have hres : clearExpiredScreenerEntries scr now =
        ⟨scr.filter fun p => decide (now - p.2.timestamp ≤ p.2.ttl),
          true⟩ := by
      unfold clearExpiredScreenerEntries
      rw [hhc]
      rfl
    rw [hres]
    exact sweep_filter_lookup scr now hnd k e hm
  | false =>
    have hC : (scr.any fun p => isExpired now p.2) = false := by
      rw [← any_drop_eq_any_isExpired]
      exact hhc
    rw [screener_sweep_nowrite scr now hC,
      isExpired_false_of_any_false scr now k e hC hm]
    exact hm

theorem screener_sweep_none {γ : Type} (scr : CacheMap γ) (now : Int)
    (k : String) (hm : scr.lookup k = none) :
    (clearExpiredScreenerEntries scr now).screenerCache.lookup k = none := by
  cases hhc : (scr.any fun p => !decide (now - p.2.timestamp ≤ p.2.ttl))
      with
  | true =>
    have hres : clearExpiredScreenerEntries scr now =
        ⟨scr.filter fun p => decide (now - p.2.timestamp ≤ p.2.ttl),
          true⟩ := by
      unfold clearExpiredScreenerEntries
      rw [hhc]
      rfl
    rw [hres]
    exact lookup_filter_none _ scr k hm
  | false =>
    have hC : (scr.any fun p => isExpired now p.2) = false := by
      rw [← any_drop_eq_any_isExpired]
      exact hhc
    rw [screener_sweep_nowrite scr now hC]
    exact hm

/-- C7: the sweep (`clearExpiredEntries`) removes exactly the entries for
which `isExpired` holds at the sweep's clock and leaves every non-expired
entry unchanged (same entry record, other keys untouched, no new keys);
and when no entry was expired, the in-memory maps are left as they were
and no persistence write is issued (`wrote = false`). Stated for the
combined stock/AI sweep of `useStockCache` and the screener sweep of
`useScreenerCache`; the `Nodup` hypotheses record that a JavaScript
object has unique keys. -/
theorem claim_C7_sweep_exact {α β γ : Type} (stock : CacheMap α)
    (ai : CacheMap β) (scr : CacheMap γ) (now : Int)
    (hnds : (stock.map Prod.fst).Nodup) (hnda : (ai.map Prod.fst).Nodup)
    (hndc : (scr.map Prod.fst).Nodup) :
    (∀ k e, stock.lookup k = some e →
      (clearExpiredEntries stock ai now).stockCache.lookup k =
        if isExpired now e then none else some e) ∧
    (∀ k, stock.lookup k = none →
      (clearExpiredEntries stock ai now).stockCache.lookup k = none) ∧
    (∀ k e, ai.lookup k = some e →
      (clearExpiredEntries stock ai now).aiCache.lookup k =
        if isExpired now e then none else some e) ∧
    (∀ k, ai.lookup k = none →
      (clearExpiredEntries stock ai now).aiCache.lookup k = none) ∧
    ((stock.any fun p => isExpired now p.2) = false →
      (ai.any fun p => isExpired now p.2) = false →
      clearExpiredEntries stock ai now = ⟨stock, ai, false⟩) ∧
    (∀ k e, scr.lookup k = some e →
      (clearExpiredScreenerEntries scr now).screenerCache.lookup k =
        if isExpired now e then none else some e) ∧
    (∀ k, scr.lookup k = none →
      (clearExpiredScreenerEntries scr now).screenerCache.lookup k = none) ∧
    ((scr.any fun p => isExpired now p.2) = false →
      clearExpiredScreenerEntries scr now = ⟨scr, false⟩) := by
  have hdropS := any_drop_eq_any_isExpired now stock
  have hdropA := any_drop_eq_any_isExpired now ai
  have hdropC := any_drop_eq_any_isExpired now scr
  cases hhc : ((stock.any fun p => !decide (now - p.2.timestamp ≤ p.2.ttl))
      || (ai.any fun p => !decide (now - p.2.timestamp ≤ p.2.ttl))) with
  | true =>
    have hres : clearExpiredEntries stock ai now =
        ⟨stock.filter fun p => decide (now - p.2.timestamp ≤ p.2.ttl),
         ai.filter fun p => decide (now - p.2.timestamp ≤ p.2.ttl),
         true⟩ := by
      unfold clearExpiredEntries
      rw [hhc]
      rfl
    refine ⟨?_, ?_, ?_, ?_, ?_, ?_, ?_, ?_⟩
    · intro k e hm
      rw [hres]
      exact sweep_filter_lookup stock now hnds k e hm
    · intro k hm
      rw [hres]
      exact lookup_filter_none _ stock k hm
    · intro k e hm
      rw [hres]
      exact sweep_filter_lookup ai now hnda k e hm
    · intro k hm
      rw [hres]
      exact lookup_filter_none _ ai k hm
    · intro hS hA
      rw [hdropS, hS, hdropA, hA] at hhc
      exact absurd hhc (by simp)
    · intro k e hm
      exact screener_sweep_some scr now hndc k e hm
    · intro k hm
      exact screener_sweep_none scr now k hm
    · intro hC
      exact screener_sweep_nowrite scr now hC
  | false =>
    have hres : clearExpiredEntries stock ai now = ⟨stock, ai, false⟩ := by
      unfold clearExpiredEntries
      rw [hhc]
      rfl
    have hSA := Bool.or_eq_false_iff.mp hhc
    have hS : (stock.any fun p => isExpired now p.2) = false := by
      rw [← hdropS]; exact hSA.1
    have hA : (ai.any fun p => isExpired now p.2) = false := by
      rw [← hdropA]; exact hSA.2
    refine ⟨?_, ?_, ?_, ?_, ?_, ?_, ?_, ?_⟩
    · intro k e hm
      rw [hres, isExpired_false_of_any_false stock now k e hS hm]
      exact hm
    · intro k hm
      rw [hres]
      exact hm
    · intro k e hm
      rw [hres, isExpired_false_of_any_false ai now k e hA hm]
      exact hm
    · intro k hm
      rw [hres]
      exact hm
    · intro _ _
      exact hres
    · intro k e hm
      exact screener_sweep_some scr now hndc k e hm
    · intro k hm
      exact screener_sweep_none scr now k hm
    · intro hC
      exact screener_sweep_nowrite scr now hC

/-- Witness for C7: sweeping a stock cache holding one expired and one
valid entry at clock `CACHE_TTL + 500` keeps exactly the valid one, and an
all-valid screener cache is left untouched with no write. -/
theorem claim_C7_witness :
    (clearExpiredEntries
      [("OLD", (⟨1, 0, CACHE_TTL⟩ : CacheEntry Nat)),
       ("NEW", (⟨2, 1000, CACHE_TTL⟩ : CacheEntry Nat))] ([] : CacheMap Nat)
      (CACHE_TTL + 500)).stockCache.lookup "NEW" =
      some ⟨2, 1000, CACHE_TTL⟩ ∧
    (clearExpiredEntries
      [("OLD", (⟨1, 0, CACHE_TTL⟩ : CacheEntry Nat)),
       ("NEW", (⟨2, 1000, CACHE_TTL⟩ : CacheEntry Nat))] ([] : CacheMap Nat)
      (CACHE_TTL + 500)).stockCache.lookup "OLD" = none ∧
    clearExpiredScreenerEntries
      [("T", (⟨3, 0, SCREENER_CACHE_TTL⟩ : CacheEntry Nat))]
      (CACHE_TTL + 500) =
      ⟨[("T", (⟨3, 0, SCREENER_CACHE_TTL⟩ : CacheEntry Nat))], false⟩ := by
  have h := claim_C7_sweep_exact
    [("OLD", (⟨1, 0, CACHE_TTL⟩ : CacheEntry Nat)),
     ("NEW", (⟨2, 1000, CACHE_TTL⟩ : CacheEntry Nat))] ([] : CacheMap Nat)
    [("T", (⟨3, 0, SCREENER_CACHE_TTL⟩ : CacheEntry Nat))]
    (CACHE_TTL + 500) (by decide) (by decide) (by decide)
  refine ⟨?_, ?_, ?_⟩
  · have h1 := h.1 "NEW" ⟨2, 1000, CACHE_TTL⟩ (by decide)
    rw [h1]
    decide
  · have h2 := h.1 "OLD" ⟨1, 0, CACHE_TTL⟩ (by decide)
    rw [h2]
    decide
  · exact h.2.2.2.2.2.2.2 (by decide)

end MarketLens
